import Mathlib

/-!
# hpa-time-scaler: window decision and min-replica reconciliation

A shallow embedding of `main.go`.  The program runs once per invocation: it
reads its configuration, decides from the wall clock which of two replica
floors is in effect, and drives the `minReplicas` field of one
HorizontalPodAutoscaler to that floor.

Conventions of the embedding

* An instant (`time.Time` compared with `Before`/`After`) is an `Int`, the
  number of nanoseconds since the Unix epoch.  `Before` is `<`, `After` is `>`.
* Go `int` and `int32` values are `Int`; the conversion `int32(x)` is
  `toInt32`, reduction modulo `2^32` into the signed range.
* `log.Fatalf` ends the run: a run's result is `Except Fatal Bool`, where the
  Boolean of a normal return says whether the autoscaler was changed.
  `log.Printf` lines are not observed by any property below and are left out.
* Everything outside the repository (the process environment, the time-zone
  database, the clock, `time.Parse`, credential loading and the API server) is
  supplied by a `World`; failures of outbound calls are decided by an `Oracle`.
* `env.Parse` is modelled on the process environment: a field of kind `int`
  is read with `strconv.ParseInt(v, 10, 32)`, so a count outside
  `[-2^31, 2^31-1]` is a parse error and never reaches the decision.
* Every outbound step is appended to a trace of `Step`s, in program order.
-/

namespace HpaTimeScaler

/-! ## Configuration (main.go, lines 20-29) -/

/-- The environment configuration, field for field. -/
structure config where
  ScaleUpTime : String
  ScaleDownTime : String
  Timezone : String
  ScaleUpReplicas : Int
  ScaleDownReplicas : Int
  HPAName : String
  Namespace : String
  LocalRun : Bool
  deriving DecidableEq, Repr

/-- The defaults declared by the `envDefault` tags; the two required fields are
supplied by the caller. -/
def defaultConfig (hpaName ns : String) : config :=
  { ScaleUpTime := "05:00", ScaleDownTime := "18:00", Timezone := "UTC",
    ScaleUpReplicas := 2, ScaleDownReplicas := 1,
    HPAName := hpaName, Namespace := ns, LocalRun := false }

/-! ## Numeric conversion -/

/-- Go conversion `int32(x)`: keep the low 32 bits, read as two's complement. -/
def toInt32 (x : Int) : Int := (x + 2147483648) % 4294967296 - 2147483648

/-! ## Time -/

/-- Nanoseconds in a civil day without zone transitions. -/
def nsPerDay : Int := 86400000000000

/-- Nanoseconds in an hour. -/
def nsPerHour : Int := 3600000000000

/-- Nanoseconds in a minute. -/
def nsPerMinute : Int := 60000000000

/-- A loaded `*time.Location`.  `dayOf t` stands for the calendar date
(`Year()`, `Month()`, `Day()` taken together) of instant `t` in the zone, and
`date d h m` for `time.Date(y, mo, d, h, m, 0, 0, loc)` on that calendar date. -/
structure Location where
  dayOf : Int → Int
  date : Int → Nat → Nat → Int

/-- The zone `UTC`: calendar dates are whole multiples of 24 hours. -/
def utc : Location :=
  { dayOf := fun t => t / nsPerDay,
    date := fun d h m => d * nsPerDay + (h : Int) * nsPerHour + (m : Int) * nsPerMinute }

/-- Go `getnum`: one or two leading decimal digits, exactly two when `fixed`. -/
def getnum (s : List Char) (fixed : Bool) : Option (Nat × List Char) :=
  match s with
  | [] => none
  | [c0] =>
    if c0.isDigit then
      if fixed then none else some (c0.toNat - 48, [])
    else none
  | c0 :: c1 :: rest =>
    if c0.isDigit then
      if c1.isDigit then some ((c0.toNat - 48) * 10 + (c1.toNat - 48), rest)
      else if fixed then none else some (c0.toNat - 48, c1 :: rest)
    else none

/-- Go `time.Parse("15:04", s)`, reduced to the hour and minute that `main`
reads back: an hour below 24, a colon, a two-digit minute below 60, and
nothing after it. -/
def parseClock1504 (s : String) : Option (Nat × Nat) :=
  match getnum s.toList false with
  | none => none
  | some (hour, rest) =>
    if 24 ≤ hour then none else
    match rest with
    | ':' :: rest1 =>
      match getnum rest1 true with
      | none => none
      | some (minute, rest2) =>
        if 60 ≤ minute then none else
        if rest2.isEmpty then some (hour, minute) else none
    | _ => none

/-! ## Window decision (main.go, lines 63-80) -/

/-- Which of the two `setMinReplicas` call sites of a branch is taken. -/
inductive Branch where
  | scaleUp
  | scaleDown
  deriving DecidableEq, Repr

/-- The nested conditional of `main`: `currentTime` against the two boundaries
re-based onto the current calendar date. -/
def windowBranch (currentTime parsedScaleUpTime parsedScaleDownTime : Int) : Branch :=
  if parsedScaleDownTime < parsedScaleUpTime then
    if currentTime > parsedScaleUpTime ∨ currentTime < parsedScaleDownTime then
      Branch.scaleUp
    else
      Branch.scaleDown
  else
    if currentTime > parsedScaleUpTime ∧ currentTime < parsedScaleDownTime then
      Branch.scaleUp
    else
      Branch.scaleDown

/-- The configured count named at the call site of a branch. -/
def branchCount (b : Branch) (cfg : config) : Int :=
  match b with
  | Branch.scaleUp => cfg.ScaleUpReplicas
  | Branch.scaleDown => cfg.ScaleDownReplicas

/-- The argument handed to `setMinReplicas` at the call site of a branch:
`int32(cfg.ScaleUpReplicas)` or `int32(cfg.ScaleDownReplicas)`. -/
def branchReplicas (b : Branch) (cfg : config) : Int :=
  toInt32 (branchCount b cfg)

/-- The replica target `main` hands to `setMinReplicas`. -/
def targetReplicas (currentTime parsedScaleUpTime parsedScaleDownTime : Int)
    (cfg : config) : Int :=
  branchReplicas (windowBranch currentTime parsedScaleUpTime parsedScaleDownTime) cfg

/-! ## The remote autoscaler -/

/-- A HorizontalPodAutoscaler as the program sees it: identity, the floor it
reads and writes, and the fields it never names.  The API server defaults
`spec.minReplicas`, so a fetched object always carries a value and the
dereference `*hpa.Spec.MinReplicas` is total. -/
structure HPA where
  Namespace : String
  name : String
  uid : String
  scaleTargetRef : String
  minReplicas : Int
  maxReplicas : Int
  metrics : List String
  deriving DecidableEq, Repr

/-- A merge document with one leaf: nested one-key objects ending in an
integer. -/
inductive Doc where
  | int (n : Int)
  | obj (key : String) (value : Doc)
  deriving DecidableEq, Repr

/-- The bytes of a merge document, in the spacing the program uses. -/
def Doc.render : Doc → String
  | Doc.int n => toString n
  | Doc.obj k v => "\x7b\"" ++ k ++ "\": " ++ v.render ++ "\x7d"

/-- The server side of a merge patch on the record: the field the document
names is overwritten, every field it does not name is kept. -/
def HPA.applyMerge (d : Doc) (h : HPA) : HPA :=
  match d with
  | Doc.obj k (Doc.obj k1 (Doc.int n)) =>
    if k = "spec" then
      if k1 = "minReplicas" then { h with minReplicas := n }
      else if k1 = "maxReplicas" then { h with maxReplicas := n }
      else h
    else h
  | _ => h

/-- The `regarding` reference of an event. -/
structure ObjectReference where
  kind : String
  Namespace : String
  name : String
  uid : String
  deriving DecidableEq, Repr

/-- The `events.k8s.io/v1` event the program creates (main.go, lines 112-130). -/
structure Event where
  name : String
  Namespace : String
  eventTime : Int
  reportingController : String
  reportingInstance : String
  action : String
  regarding : ObjectReference
  reason : String
  note : String
  type : String
  deriving DecidableEq, Repr

/-- Why an outbound call failed. -/
inductive ApiError where
  | notFound
  | transport
  deriving DecidableEq, Repr

/-- Decides, for one invocation of `setMinReplicas`, which external steps fail,
and supplies the second clock reading used as the event time. -/
structure Oracle where
  kubeConfigErr : Bool
  clientErr : Bool
  getErr : Bool
  patchErr : Bool
  eventErr : Bool
  eventNow : Int
  deriving DecidableEq, Repr

/-- The state of the cluster: its autoscalers by namespace and name, and its
event log. -/
structure Cluster where
  hpas : String → String → Option HPA
  events : List Event

/-- `HorizontalPodAutoscalers(ns).Get(name)`. -/
def Cluster.get (c : Cluster) (o : Oracle) (ns name : String) : Except ApiError HPA :=
  if o.getErr then Except.error ApiError.transport
  else
    match c.hpas ns name with
    | none => Except.error ApiError.notFound
    | some h => Except.ok h

/-- `HorizontalPodAutoscalers(ns).Patch(name, StrategicMergePatchType, doc)`:
on success the addressed object, and only it, is replaced by its merge with
the document. -/
def Cluster.patch (c : Cluster) (o : Oracle) (ns name : String) (d : Doc) :
    Except ApiError Cluster :=
  if o.patchErr then Except.error ApiError.transport
  else
    match c.hpas ns name with
    | none => Except.error ApiError.notFound
    | some h =>
      Except.ok
        { c with hpas := fun ns1 name1 =>
            if ns1 = ns ∧ name1 = name then some (h.applyMerge d) else c.hpas ns1 name1 }

/-- `Events(ns).Create(ev)`, result discarded by the caller: a failed call
leaves the log as it was. -/
def Cluster.createEvent (c : Cluster) (o : Oracle) (ev : Event) : Cluster :=
  if o.eventErr then c else { c with events := c.events ++ [ev] }

/-! ## Runs -/

deriving instance DecidableEq for Except

/-- The `log.Fatalf` sites of the program. -/
inductive Fatal where
  | envParse
  | timezone
  | scaleUpTime
  | scaleDownTime
  | kubeconfig
  | clientset
  | getHPA (e : ApiError)
  | updateHPA (e : ApiError)
  deriving DecidableEq, Repr

/-- The patch strategies of `k8s.io/apimachinery/pkg/types`. -/
inductive PatchType where
  | json
  | merge
  | strategicMerge
  | apply
  deriving DecidableEq, Repr

/-- One observable step of a run, in program order. -/
inductive Step where
  | enter (replicas : Int)
  | kubeConfig (localRun : Bool)
  | newForConfig
  | get (ns name : String)
  | patch (ns name : String) (pt : PatchType) (body : String)
  | createEvent (ns : String) (ev : Event)
  deriving DecidableEq, Repr

/-- A finished run: how it ended, what it did, and the cluster it left. -/
structure Run where
  result : Except Fatal Bool
  steps : List Step
  cluster : Cluster

/-! ## setMinReplicas (main.go, lines 84-131) and getKubeConfig (lines 133-156) -/

/-- Where the REST configuration came from. -/
inductive RestConfig where
  | local
  | inCluster
  deriving DecidableEq, Repr

/-- Either credential source may fail, which is fatal. -/
def getKubeConfig (cfg : config) (o : Oracle) : Except Fatal RestConfig :=
  if cfg.LocalRun then
    if o.kubeConfigErr then Except.error Fatal.kubeconfig else Except.ok RestConfig.local
  else
    if o.kubeConfigErr then Except.error Fatal.kubeconfig else Except.ok RestConfig.inCluster

/-- The patch body, `fmt.Sprintf` of the replica count into the literal
document of line 105. -/
def patchReplicas (replicas : Int) : String :=
  "\x7b\"spec\": \x7b\"minReplicas\": " ++ toString replicas ++ "\x7d\x7d"

/-- The document those bytes denote. -/
def patchDoc (replicas : Int) : Doc :=
  Doc.obj "spec" (Doc.obj "minReplicas" (Doc.int replicas))

/-- The event of lines 112-130. -/
def scaledEvent (replicas : Int) (cfg : config) (hpa : HPA) (eventNow : Int) : Event :=
  { name := "hpa-time-scaler",
    Namespace := cfg.Namespace,
    eventTime := eventNow,
    reportingController := "hpa-time-scaler",
    reportingInstance := "hpa-time-scaler",
    action := "Scaled",
    regarding :=
      { kind := "HorizontalPodAutoscaler", Namespace := cfg.Namespace,
        name := cfg.HPAName, uid := hpa.uid },
    reason := "HPATimeScaleEvent",
    note := "hpa-time-scaler set minReplicas to " ++ toString replicas,
    type := "Normal" }

/-- One invocation of `setMinReplicas(replicas, cfg)` against cluster `c`. -/
def setMinReplicas (replicas : Int) (cfg : config) (o : Oracle) (c : Cluster) : Run :=
  match getKubeConfig cfg o with
  | Except.error e =>
    { result := Except.error e,
      steps := [Step.enter replicas, Step.kubeConfig cfg.LocalRun],
      cluster := c }
  | Except.ok _ =>
    if o.clientErr then
      { result := Except.error Fatal.clientset,
        steps := [Step.enter replicas, Step.kubeConfig cfg.LocalRun, Step.newForConfig],
        cluster := c }
    else
      match c.get o cfg.Namespace cfg.HPAName with
      | Except.error e =>
        { result := Except.error (Fatal.getHPA e),
          steps := [Step.enter replicas, Step.kubeConfig cfg.LocalRun, Step.newForConfig,
            Step.get cfg.Namespace cfg.HPAName],
          cluster := c }
      | Except.ok hpa =>
        if hpa.minReplicas = replicas then
          { result := Except.ok false,
            steps := [Step.enter replicas, Step.kubeConfig cfg.LocalRun, Step.newForConfig,
              Step.get cfg.Namespace cfg.HPAName],
            cluster := c }
        else
          match c.patch o cfg.Namespace cfg.HPAName (patchDoc replicas) with
          | Except.error e =>
            { result := Except.error (Fatal.updateHPA e),
              steps := [Step.enter replicas, Step.kubeConfig cfg.LocalRun, Step.newForConfig,
                Step.get cfg.Namespace cfg.HPAName,
                Step.patch cfg.Namespace cfg.HPAName PatchType.strategicMerge
                  (patchReplicas replicas)],
              cluster := c }
          | Except.ok c1 =>
            { result := Except.ok true,
              steps := [Step.enter replicas, Step.kubeConfig cfg.LocalRun, Step.newForConfig,
                Step.get cfg.Namespace cfg.HPAName,
                Step.patch cfg.Namespace cfg.HPAName PatchType.strategicMerge
                  (patchReplicas replicas),
                Step.createEvent cfg.Namespace
                  (scaledEvent replicas cfg hpa o.eventNow)],
              cluster := c1.createEvent o (scaledEvent replicas cfg hpa o.eventNow) }

/-! ## Environment parsing (main.go, lines 33-37) -/

/-- Value of a string of decimal digits; `none` when the string is empty or
holds anything but digits. -/
def parseDigits (s : List Char) : Option Nat :=
  if s.isEmpty then none
  else
    s.foldl
      (fun acc c =>
        match acc with
        | none => none
        | some n => if c.isDigit then some (n * 10 + (c.toNat - 48)) else none)
      (some 0)

/-- Go `strconv.ParseInt(s, 10, 32)`, which `env.Parse` applies to a field of
kind `int`: an optional sign, decimal digits, and a value within
`[-2^31, 2^31-1]`; anything else is an error. -/
def parseInt32 (s : String) : Option Int :=
  match s.toList with
  | [] => none
  | '+' :: rest =>
    match parseDigits rest with
    | none => none
    | some n => if n < 2147483648 then some (n : Int) else none
  | '-' :: rest =>
    match parseDigits rest with
    | none => none
    | some n => if n ≤ 2147483648 then some (-(n : Int)) else none
  | c :: rest =>
    match parseDigits (c :: rest) with
    | none => none
    | some n => if n < 2147483648 then some (n : Int) else none

/-- Go `strconv.ParseBool`, which `env.Parse` applies to a field of kind
`bool`. -/
def parseBool (s : String) : Option Bool :=
  if s = "1" ∨ s = "t" ∨ s = "T" ∨ s = "TRUE" ∨ s = "true" ∨ s = "True" then some true
  else if s = "0" ∨ s = "f" ∨ s = "F" ∨ s = "FALSE" ∨ s = "false" ∨ s = "False" then some false
  else none

/-- The text `env.Parse` takes for a variable: its value, or the `envDefault`
when it is unset or empty; `none` when it is unset and has no default. -/
def getOr (environ : String → Option String) (key : String) (defaultValue : Option String) :
    Option String :=
  match environ key with
  | none => defaultValue
  | some value =>
    if value = "" then
      match defaultValue with
      | some d => some d
      | none => some value
    else some value

/-- A string field with a default. -/
def stringField (environ : String → Option String) (key defaultValue : String) : String :=
  (getOr environ key (some defaultValue)).getD ""

/-- A `required` string field: unset is an error. -/
def requiredField (environ : String → Option String) (key : String) : Option String :=
  getOr environ key none

/-- An `int` field with a default: empty text leaves the zero value, any other
text is converted by `parseInt32`. -/
def intField (environ : String → Option String) (key defaultValue : String) : Option Int :=
  if (getOr environ key (some defaultValue)).getD "" = "" then some 0
  else parseInt32 ((getOr environ key (some defaultValue)).getD "")

/-- A `bool` field with a default: empty text leaves the zero value, any other
text is converted by `parseBool`. -/
def boolField (environ : String → Option String) (key defaultValue : String) : Option Bool :=
  if (getOr environ key (some defaultValue)).getD "" = "" then some false
  else parseBool ((getOr environ key (some defaultValue)).getD "")

/-- The call `env.Parse(&cfg)` of line 34 on the process environment, following
the struct tags of lines 21-28; `none` is the error of line 35. -/
def parseEnv (environ : String → Option String) : Option config :=
  match intField environ "SCALE_UP_REPLICAS" "2",
        intField environ "SCALE_DOWN_REPLICAS" "1",
        requiredField environ "HPA_NAME",
        requiredField environ "NAMESPACE",
        boolField environ "LOCAL_RUN" "false" with
  | some upReplicas, some downReplicas, some hpaName, some ns, some localRun =>
    some
      { ScaleUpTime := stringField environ "SCALE_UP_TIME" "05:00",
        ScaleDownTime := stringField environ "SCALE_DOWN_TIME" "18:00",
        Timezone := stringField environ "TIMEZONE" "UTC",
        ScaleUpReplicas := upReplicas,
        ScaleDownReplicas := downReplicas,
        HPAName := hpaName,
        Namespace := ns,
        LocalRun := localRun }
  | _, _, _, _, _ => none

/-! ## main (main.go, lines 31-82) -/

/-- Everything `main` obtains from outside the program. -/
structure World where
  environ : String → Option String
  loadLocation : String → Option Location
  now : Int
  parseClock : String → Option (Nat × Nat)
  oracle : Oracle
  cluster : Cluster

/-- The configuration `env.Parse` returns in this world, `none` on error. -/
def World.envParse (w : World) : Option config := parseEnv w.environ

/-- A run that stopped at a `log.Fatalf` of `main`, before any outbound step. -/
def World.fatal (w : World) (e : Fatal) : Run :=
  { result := Except.error e, steps := [], cluster := w.cluster }

/-- One run of the program. -/
def main (w : World) : Run :=
  match w.envParse with
  | none => w.fatal Fatal.envParse
  | some cfg =>
    match w.loadLocation cfg.Timezone with
    | none => w.fatal Fatal.timezone
    | some timeLocation =>
      let currentTime := w.now
      match w.parseClock cfg.ScaleUpTime with
      | none => w.fatal Fatal.scaleUpTime
      | some (upHour, upMinute) =>
        match w.parseClock cfg.ScaleDownTime with
        | none => w.fatal Fatal.scaleDownTime
        | some (downHour, downMinute) =>
          let parsedScaleUpTime :=
            timeLocation.date (timeLocation.dayOf currentTime) upHour upMinute
          let parsedScaleDownTime :=
            timeLocation.date (timeLocation.dayOf currentTime) downHour downMinute
          setMinReplicas (targetReplicas currentTime parsedScaleUpTime parsedScaleDownTime cfg)
            cfg w.oracle w.cluster

/-! ## Trace observations -/

/-- Is the step a read of the autoscaler? -/
def Step.isGet : Step → Bool
  | Step.get _ _ => true
  | _ => false

/-- Is the step a patch of the autoscaler? -/
def Step.isPatch : Step → Bool
  | Step.patch _ _ _ _ => true
  | _ => false

/-- Is the step an event creation? -/
def Step.isEvent : Step → Bool
  | Step.createEvent _ _ => true
  | _ => false

/-- Is the step an entry into `setMinReplicas`? -/
def Step.isEnter : Step → Bool
  | Step.enter _ => true
  | _ => false

/-- Does the step go over the network to the API server? -/
def Step.isRemote (s : Step) : Bool := s.isGet || s.isPatch || s.isEvent

/-- Number of reads in a trace. -/
def fetches (steps : List Step) : Nat := steps.countP Step.isGet

/-- Number of patches in a trace. -/
def patches (steps : List Step) : Nat := steps.countP Step.isPatch

/-- Number of event creations in a trace. -/
def eventCreations (steps : List Step) : Nat := steps.countP Step.isEvent

/-- Number of entries into `setMinReplicas` in a trace. -/
def invocations (steps : List Step) : Nat := steps.countP Step.isEnter

/-- The calls of a trace that reach the API server, in order. -/
def remoteCalls (steps : List Step) : List Step := steps.filter Step.isRemote

/-! ## Concrete worlds used to exercise the definitions -/

/-- An autoscaler `web` in namespace `prod` with the given floor. -/
def sampleHPA (minReplicas : Int) : HPA :=
  { Namespace := "prod", name := "web", uid := "uid-1", scaleTargetRef := "Deployment/web",
    minReplicas := minReplicas, maxReplicas := 10, metrics := ["cpu"] }

/-- A cluster holding only `sampleHPA`. -/
def sampleCluster (minReplicas : Int) : Cluster :=
  { hpas := fun ns name =>
      if ns = "prod" ∧ name = "web" then some (sampleHPA minReplicas) else none,
    events := [] }

/-- An oracle under which every external step succeeds. -/
def allOk : Oracle :=
  { kubeConfigErr := false, clientErr := false, getErr := false, patchErr := false,
    eventErr := false, eventNow := 0 }

/-- The default configuration aimed at `sampleHPA`. -/
def sampleConfig : config := defaultConfig "web" "prod"

/-- The only zone of the sample worlds. -/
def sampleLoadLocation (name : String) : Option Location :=
  if name = "UTC" then some utc else none

/-- The calendar date of the sample runs, as a day count from the epoch. -/
def sampleDay : Int := 20000

/-- The instant `h:m:00` of `sampleDay` in UTC. -/
def clock (h m : Nat) : Int := utc.date sampleDay h m

/-- The range of `int32`. -/
def inInt32 (x : Int) : Prop := -2147483648 ≤ x ∧ x ≤ 2147483647

instance (x : Int) : Decidable (inInt32 x) := by
  unfold inInt32
  exact inferInstance

/-- The credential source and the client constructor both succeed. -/
def Oracle.clientBuilt (o : Oracle) : Prop :=
  o.kubeConfigErr = false ∧ o.clientErr = false

instance (o : Oracle) : Decidable o.clientBuilt := by
  unfold Oracle.clientBuilt
  exact inferInstance

/-- A process environment given as a list of variables. -/
def environOf (vars : List (String × String)) (key : String) : Option String :=
  match vars with
  | [] => none
  | (k, v) :: rest => if k = key then some v else environOf rest key

/-- The variables that spell out a configuration. -/
def configVars (cfg : config) : List (String × String) :=
  [("SCALE_UP_TIME", cfg.ScaleUpTime), ("SCALE_DOWN_TIME", cfg.ScaleDownTime),
   ("TIMEZONE", cfg.Timezone), ("SCALE_UP_REPLICAS", toString cfg.ScaleUpReplicas),
   ("SCALE_DOWN_REPLICAS", toString cfg.ScaleDownReplicas), ("HPA_NAME", cfg.HPAName),
   ("NAMESPACE", cfg.Namespace), ("LOCAL_RUN", toString cfg.LocalRun)]

/-- A world whose environment spells out `cfg`, running at instant `now`
against `sampleCluster`. -/
def sampleWorld (cfg : config) (now : Int) (minReplicas : Int) : World :=
  { environ := environOf (configVars cfg), loadLocation := sampleLoadLocation, now := now,
    parseClock := parseClock1504, oracle := allOk, cluster := sampleCluster minReplicas }

/-- A world with only the required variables and `SCALE_UP_REPLICAS` set. -/
def countWorld (scaleUpReplicas : String) (now : Int) : World :=
  { environ := environOf
      [("HPA_NAME", "web"), ("NAMESPACE", "prod"), ("SCALE_UP_REPLICAS", scaleUpReplicas)],
    loadLocation := sampleLoadLocation, now := now,
    parseClock := parseClock1504, oracle := allOk, cluster := sampleCluster 1 }

/-! ## Shared lemmas -/

theorem toInt32_range (x : Int) : inInt32 (toInt32 x) := by
  unfold inInt32 toInt32
  omega

theorem toInt32_of_inInt32 (x : Int) (h : inInt32 x) : toInt32 x = x := by
  unfold inInt32 at h
  unfold toInt32
  omega

theorem toInt32_eq_self_iff (x : Int) : toInt32 x = x ↔ inInt32 x := by
  constructor
  · intro h
    have hr := toInt32_range x
    rw [h] at hr
    exact hr
  · exact toInt32_of_inInt32 x

theorem toInt32_congr (x : Int) : (toInt32 x - x) % 4294967296 = 0 := by
  unfold toInt32
  omega

theorem windowBranch_wrap (now up down : Int) (h : down < up) :
    windowBranch now up down = Branch.scaleUp ↔ (now > up ∨ now < down) := by
  unfold windowBranch
  rw [if_pos h]
  by_cases hc : now > up ∨ now < down
  · simp [hc]
  · simp [hc]

theorem windowBranch_sameDay (now up down : Int) (h : ¬ down < up) :
    windowBranch now up down = Branch.scaleUp ↔ (now > up ∧ now < down) := by
  unfold windowBranch
  rw [if_neg h]
  by_cases hc : now > up ∧ now < down
  · simp [hc]
  · simp [hc]

theorem branch_ne_scaleUp (b : Branch) : b ≠ Branch.scaleUp ↔ b = Branch.scaleDown := by
  cases b <;> simp

/-! ## Shared lemmas on the reconciler -/

theorem applyMerge_patchDoc (r : Int) (h : HPA) :
    h.applyMerge (patchDoc r) = { h with minReplicas := r } := by
  simp [HPA.applyMerge, patchDoc]

theorem createEvent_hpas (c : Cluster) (o : Oracle) (ev : Event) :
    (c.createEvent o ev).hpas = c.hpas := by
  unfold Cluster.createEvent
  split <;> rfl

theorem get_ok_iff (c : Cluster) (o : Oracle) (ns name : String) (h : HPA) :
    c.get o ns name = Except.ok h ↔ (o.getErr = false ∧ c.hpas ns name = some h) := by
  unfold Cluster.get
  cases hg : o.getErr
  · cases hh : c.hpas ns name <;> simp
  · simp

theorem patch_ok_iff (c : Cluster) (o : Oracle) (ns name : String) (d : Doc) (c1 : Cluster) :
    c.patch o ns name d = Except.ok c1 ↔
      (o.patchErr = false ∧ ∃ h, c.hpas ns name = some h ∧
        c1 = { c with hpas := fun ns1 name1 =>
          if ns1 = ns ∧ name1 = name then some (h.applyMerge d) else c.hpas ns1 name1 }) := by
  unfold Cluster.patch
  cases hg : o.patchErr
  · cases hh : c.hpas ns name
    · simp
    · simp only [Bool.false_eq_true, if_false, Except.ok.injEq, true_and, Option.some.injEq,
        exists_eq_left']
      exact eq_comm
  · simp

theorem run_kubeConfigErr (r : Int) (cfg : config) (o : Oracle) (c : Cluster)
    (hk : o.kubeConfigErr = true) :
    setMinReplicas r cfg o c =
      { result := Except.error Fatal.kubeconfig,
        steps := [Step.enter r, Step.kubeConfig cfg.LocalRun],
        cluster := c } := by
  unfold setMinReplicas getKubeConfig
  cases cfg.LocalRun <;> simp [hk]

theorem run_clientErr (r : Int) (cfg : config) (o : Oracle) (c : Cluster)
    (hk : o.kubeConfigErr = false) (hc : o.clientErr = true) :
    setMinReplicas r cfg o c =
      { result := Except.error Fatal.clientset,
        steps := [Step.enter r, Step.kubeConfig cfg.LocalRun, Step.newForConfig],
        cluster := c } := by
  unfold setMinReplicas getKubeConfig
  cases cfg.LocalRun <;> simp [hk, hc]

theorem run_getErr (r : Int) (cfg : config) (o : Oracle) (c : Cluster)
    (hb : o.clientBuilt) (e : ApiError)
    (hg : c.get o cfg.Namespace cfg.HPAName = Except.error e) :
    setMinReplicas r cfg o c =
      { result := Except.error (Fatal.getHPA e),
        steps := [Step.enter r, Step.kubeConfig cfg.LocalRun, Step.newForConfig,
          Step.get cfg.Namespace cfg.HPAName],
        cluster := c } := by
  obtain ⟨hk, hc⟩ := hb
  unfold setMinReplicas getKubeConfig
  cases cfg.LocalRun <;> simp [hk, hc, hg]

theorem run_unchanged (r : Int) (cfg : config) (o : Oracle) (c : Cluster)
    (hb : o.clientBuilt) (h : HPA)
    (hg : c.get o cfg.Namespace cfg.HPAName = Except.ok h) (heq : h.minReplicas = r) :
    setMinReplicas r cfg o c =
      { result := Except.ok false,
        steps := [Step.enter r, Step.kubeConfig cfg.LocalRun, Step.newForConfig,
          Step.get cfg.Namespace cfg.HPAName],
        cluster := c } := by
  obtain ⟨hk, hc⟩ := hb
  unfold setMinReplicas getKubeConfig
  cases cfg.LocalRun <;> simp [hk, hc, hg, heq]

theorem run_patchErr (r : Int) (cfg : config) (o : Oracle) (c : Cluster)
    (hb : o.clientBuilt) (h : HPA)
    (hg : c.get o cfg.Namespace cfg.HPAName = Except.ok h) (hne : h.minReplicas ≠ r)
    (e : ApiError)
    (hp : c.patch o cfg.Namespace cfg.HPAName (patchDoc r) = Except.error e) :
    setMinReplicas r cfg o c =
      { result := Except.error (Fatal.updateHPA e),
        steps := [Step.enter r, Step.kubeConfig cfg.LocalRun, Step.newForConfig,
          Step.get cfg.Namespace cfg.HPAName,
          Step.patch cfg.Namespace cfg.HPAName PatchType.strategicMerge (patchReplicas r)],
        cluster := c } := by
  obtain ⟨hk, hc⟩ := hb
  unfold setMinReplicas getKubeConfig
  cases cfg.LocalRun <;> simp [hk, hc, hg, hne, hp]

theorem run_changed (r : Int) (cfg : config) (o : Oracle) (c : Cluster)
    (hb : o.clientBuilt) (h : HPA)
    (hg : c.get o cfg.Namespace cfg.HPAName = Except.ok h) (hne : h.minReplicas ≠ r)
    (c1 : Cluster)
    (hp : c.patch o cfg.Namespace cfg.HPAName (patchDoc r) = Except.ok c1) :
    setMinReplicas r cfg o c =
      { result := Except.ok true,
        steps := [Step.enter r, Step.kubeConfig cfg.LocalRun, Step.newForConfig,
          Step.get cfg.Namespace cfg.HPAName,
          Step.patch cfg.Namespace cfg.HPAName PatchType.strategicMerge (patchReplicas r),
          Step.createEvent cfg.Namespace (scaledEvent r cfg h o.eventNow)],
        cluster := c1.createEvent o (scaledEvent r cfg h o.eventNow) } := by
  obtain ⟨hk, hc⟩ := hb
  unfold setMinReplicas getKubeConfig
  cases cfg.LocalRun <;> simp [hk, hc, hg, hne, hp]

/-- The five ways an invocation can go, each with its complete run. -/
theorem run_cases (r : Int) (cfg : config) (o : Oracle) (c : Cluster) :
    (¬ o.clientBuilt ∧ patches (setMinReplicas r cfg o c).steps = 0 ∧
      fetches (setMinReplicas r cfg o c).steps = 0 ∧
      eventCreations (setMinReplicas r cfg o c).steps = 0 ∧
      (setMinReplicas r cfg o c).cluster = c ∧
      ∃ e, (setMinReplicas r cfg o c).result = Except.error e) ∨
    (o.clientBuilt ∧ ∃ e, c.get o cfg.Namespace cfg.HPAName = Except.error e) ∨
    (o.clientBuilt ∧ ∃ h, c.get o cfg.Namespace cfg.HPAName = Except.ok h ∧
      h.minReplicas = r) ∨
    (o.clientBuilt ∧ ∃ h, c.get o cfg.Namespace cfg.HPAName = Except.ok h ∧
      h.minReplicas ≠ r ∧
      ∃ e, c.patch o cfg.Namespace cfg.HPAName (patchDoc r) = Except.error e) ∨
    (o.clientBuilt ∧ ∃ h, c.get o cfg.Namespace cfg.HPAName = Except.ok h ∧
      h.minReplicas ≠ r ∧
      ∃ c1, c.patch o cfg.Namespace cfg.HPAName (patchDoc r) = Except.ok c1) := by
  cases hk : o.kubeConfigErr
  · cases hc : o.clientErr
    · have hb : o.clientBuilt := ⟨hk, hc⟩
      right
      rcases hg : c.get o cfg.Namespace cfg.HPAName with e | h
      · exact Or.inl ⟨hb, e, rfl⟩
      · right
        by_cases heq : h.minReplicas = r
        · exact Or.inl ⟨hb, h, rfl, heq⟩
        · right
          rcases hp : c.patch o cfg.Namespace cfg.HPAName (patchDoc r) with e | c1
          · exact Or.inl ⟨hb, h, rfl, heq, e, rfl⟩
          · exact Or.inr ⟨hb, h, rfl, heq, c1, rfl⟩
    · left
      rw [run_clientErr r cfg o c hk hc]
      refine ⟨?_, rfl, rfl, rfl, rfl, _, rfl⟩
      intro hb
      rw [hb.2] at hc
      cases hc
  · left
    rw [run_kubeConfigErr r cfg o c hk]
    refine ⟨?_, rfl, rfl, rfl, rfl, _, rfl⟩
    intro hb
    rw [hb.1] at hk
    cases hk

theorem invocations_setMinReplicas (r : Int) (cfg : config) (o : Oracle) (c : Cluster) :
    invocations (setMinReplicas r cfg o c).steps = 1 := by
  unfold setMinReplicas
  repeat' split
  all_goals rfl

/-- After a call that returned normally, the addressed autoscaler exists and
its floor is the desired value. -/
theorem settled_after_success (d : Int) (cfg : config) (o : Oracle) (c : Cluster) (b : Bool)
    (hr : (setMinReplicas d cfg o c).result = Except.ok b) :
    ∃ h, (setMinReplicas d cfg o c).cluster.hpas cfg.Namespace cfg.HPAName = some h ∧
      h.minReplicas = d := by
  rcases run_cases d cfg o c with ⟨_, _, _, _, _, e, he⟩ | ⟨hb, e, hg⟩ | ⟨hb, h, hg, heq⟩ |
    ⟨hb, h, hg, hne, e, hp⟩ | ⟨hb, h, hg, hne, c1, hp⟩
  · rw [he] at hr
    cases hr
  · rw [run_getErr d cfg o c hb e hg] at hr
    cases hr
  · rw [run_unchanged d cfg o c hb h hg heq]
    exact ⟨h, ((get_ok_iff c o _ _ h).1 hg).2, heq⟩
  · rw [run_patchErr d cfg o c hb h hg hne e hp] at hr
    cases hr
  · rw [run_changed d cfg o c hb h hg hne c1 hp]
    obtain ⟨_, h1, hh1, hc1⟩ := (patch_ok_iff c o _ _ _ c1).1 hp
    refine ⟨h1.applyMerge (patchDoc d), ?_, ?_⟩
    · simp only [createEvent_hpas]
      rw [hc1]
      simp
    · rw [applyMerge_patchDoc]

/-- A call against a cluster whose addressed autoscaler, if any, already has
the desired floor writes nothing. -/
theorem no_write_of_settled (d : Int) (cfg : config) (o : Oracle) (c : Cluster)
    (hs : ∀ h, c.hpas cfg.Namespace cfg.HPAName = some h → h.minReplicas = d) :
    patches (setMinReplicas d cfg o c).steps = 0 ∧
    eventCreations (setMinReplicas d cfg o c).steps = 0 ∧
    (setMinReplicas d cfg o c).cluster = c := by
  rcases run_cases d cfg o c with ⟨_, hp, _, he, hc, _⟩ | ⟨hb, e, hg⟩ | ⟨hb, h, hg, heq⟩ |
    ⟨hb, h, hg, hne, _⟩ | ⟨hb, h, hg, hne, _⟩
  · exact ⟨hp, he, hc⟩
  · rw [run_getErr d cfg o c hb e hg]
    exact ⟨rfl, rfl, rfl⟩
  · rw [run_unchanged d cfg o c hb h hg heq]
    exact ⟨rfl, rfl, rfl⟩
  · exact absurd (hs h ((get_ok_iff c o _ _ h).1 hg).2) hne
  · exact absurd (hs h ((get_ok_iff c o _ _ h).1 hg).2) hne

/-! ## Shared lemmas on main -/

theorem main_envFail (w : World) (henv : w.envParse = none) :
    main w = w.fatal Fatal.envParse := by
  unfold main
  simp only [henv]

theorem main_timezoneFail (w : World) (cfg : config) (henv : w.envParse = some cfg)
    (hloc : w.loadLocation cfg.Timezone = none) :
    main w = w.fatal Fatal.timezone := by
  unfold main
  simp only [henv, hloc]

theorem main_scaleUpFail (w : World) (cfg : config) (loc : Location)
    (henv : w.envParse = some cfg) (hloc : w.loadLocation cfg.Timezone = some loc)
    (hup : w.parseClock cfg.ScaleUpTime = none) :
    main w = w.fatal Fatal.scaleUpTime := by
  unfold main
  simp only [henv, hloc, hup]

theorem main_scaleDownFail (w : World) (cfg : config) (loc : Location) (upClock : Nat × Nat)
    (henv : w.envParse = some cfg) (hloc : w.loadLocation cfg.Timezone = some loc)
    (hup : w.parseClock cfg.ScaleUpTime = some upClock)
    (hdown : w.parseClock cfg.ScaleDownTime = none) :
    main w = w.fatal Fatal.scaleDownTime := by
  obtain ⟨uh, um⟩ := upClock
  unfold main
  simp only [henv, hloc, hup, hdown]

theorem main_reconciles (w : World) (cfg : config) (loc : Location)
    (upClock downClock : Nat × Nat)
    (henv : w.envParse = some cfg) (hloc : w.loadLocation cfg.Timezone = some loc)
    (hup : w.parseClock cfg.ScaleUpTime = some upClock)
    (hdown : w.parseClock cfg.ScaleDownTime = some downClock) :
    main w = setMinReplicas
      (targetReplicas w.now (loc.date (loc.dayOf w.now) upClock.1 upClock.2)
        (loc.date (loc.dayOf w.now) downClock.1 downClock.2) cfg)
      cfg w.oracle w.cluster := by
  obtain ⟨uh, um⟩ := upClock
  obtain ⟨dh, dm⟩ := downClock
  unfold main
  simp only [henv, hloc, hup, hdown]

/-! ## Shared lemmas on environment parsing -/

theorem parseInt32_range (s : String) (x : Int) (h : parseInt32 s = some x) : inInt32 x := by
  unfold parseInt32 at h
  unfold inInt32
  split at h
  · cases h
  all_goals
    split at h
    · cases h
    · split at h
      · cases h
        omega
      · cases h

theorem intField_range (environ : String → Option String) (key defaultValue : String)
    (x : Int) (h : intField environ key defaultValue = some x) : inInt32 x := by
  unfold intField at h
  split at h
  · cases h
    unfold inInt32
    omega
  · exact parseInt32_range _ x h

/-- Whatever `env.Parse` returns has both replica counts within `int32`. -/
theorem parseEnv_range (environ : String → Option String) (cfg : config)
    (h : parseEnv environ = some cfg) :
    inInt32 cfg.ScaleUpReplicas ∧ inInt32 cfg.ScaleDownReplicas := by
  unfold parseEnv at h
  split at h
  · rename_i upReplicas downReplicas hpaName ns localRun hup hdown _ _ _
    cases h
    exact ⟨intField_range _ _ _ _ hup, intField_range _ _ _ _ hdown⟩
  · cases h

/-! ## Window decision -/

/-- C1, as stated, fails on the code: with up=05:00 and down=18:00 on the same
day and `now` exactly 05:00:00, the window is a same-day window containing
`now` in `[T_up, T_down)`, yet `main` takes the scale-down call site and hands
the scale-down value 1 (not the scale-up value 2) to `setMinReplicas`. -/
theorem C1_counterexample :
    clock 5 0 < clock 18 0 ∧ clock 5 0 ≤ clock 5 0 ∧ clock 5 0 < clock 18 0 ∧
    windowBranch (clock 5 0) (clock 5 0) (clock 18 0) = Branch.scaleDown ∧
    targetReplicas (clock 5 0) (clock 5 0) (clock 18 0) sampleConfig
      = sampleConfig.ScaleDownReplicas ∧
    targetReplicas (clock 5 0) (clock 5 0) (clock 18 0) sampleConfig
      ≠ sampleConfig.ScaleUpReplicas ∧
    (main (sampleWorld sampleConfig (clock 5 0) 2)).steps.head? = some (Step.enter 1) := by
  decide

/-- C1, amended: for a same-day window (`T_up < T_down`) and every instant
`now`, the scale-up call site is taken exactly when `T_up < now < T_down`, both
boundaries exclusive; the target is then `int32(ScaleUpReplicas)`, and it is
`int32(ScaleDownReplicas)` at every other instant, `now = T_up` included. -/
theorem C1_sameDay_window_exclusive (now up down : Int) (cfg : config) (h : up < down) :
    (up < now ∧ now < down →
      windowBranch now up down = Branch.scaleUp ∧
      targetReplicas now up down cfg = toInt32 cfg.ScaleUpReplicas) ∧
    (¬ (up < now ∧ now < down) →
      windowBranch now up down = Branch.scaleDown ∧
      targetReplicas now up down cfg = toInt32 cfg.ScaleDownReplicas) ∧
    windowBranch up up down = Branch.scaleDown ∧
    targetReplicas up up down cfg = toInt32 cfg.ScaleDownReplicas := by
  have hnot : ¬ down < up := by omega
  have key : ∀ t : Int, ¬ (up < t ∧ t < down) →
      windowBranch t up down = Branch.scaleDown ∧
      targetReplicas t up down cfg = toInt32 cfg.ScaleDownReplicas := by
    intro t ht
    have hb : windowBranch t up down = Branch.scaleDown := by
      rw [← branch_ne_scaleUp]
      intro hu
      exact ht ((windowBranch_sameDay t up down hnot).1 hu)
    exact ⟨hb, by simp [targetReplicas, hb, branchReplicas, branchCount]⟩
  refine ⟨?_, key now, ?_, ?_⟩
  · intro hin
    have hb : windowBranch now up down = Branch.scaleUp :=
      (windowBranch_sameDay now up down hnot).2 hin
    exact ⟨hb, by simp [targetReplicas, hb, branchReplicas, branchCount]⟩
  · exact (key up (by omega)).1
  · exact (key up (by omega)).2

/-- Witness for C1 amended: up=05:00, down=18:00; at 09:00 the target is the
scale-up value 2, at 05:00:00 exactly it is the scale-down value 1. -/
theorem C1_sameDay_window_exclusive_witness :
    clock 5 0 < clock 18 0 ∧
    targetReplicas (clock 9 0) (clock 5 0) (clock 18 0) sampleConfig = 2 ∧
    targetReplicas (clock 5 0) (clock 5 0) (clock 18 0) sampleConfig = 1 :=
  ⟨by decide,
   ((C1_sameDay_window_exclusive (clock 9 0) (clock 5 0) (clock 18 0) sampleConfig
      (by decide)).1 (by decide)).2.trans (by decide),
   (C1_sameDay_window_exclusive (clock 9 0) (clock 5 0) (clock 18 0) sampleConfig
      (by decide)).2.2.2.trans (by decide)⟩

/-- C2, as stated, fails on the code when the two boundaries coincide: with
up=05:00 and down=05:00 (so `T_up ≥ T_down`) and `now` = 09:00, strictly after
`T_up`, `main` takes the scale-down call site and hands the scale-down value 1
to `setMinReplicas`. -/
theorem C2_counterexample :
    clock 5 0 ≥ clock 5 0 ∧ clock 9 0 > clock 5 0 ∧
    windowBranch (clock 9 0) (clock 5 0) (clock 5 0) = Branch.scaleDown ∧
    targetReplicas (clock 9 0) (clock 5 0) (clock 5 0) sampleConfig
      = sampleConfig.ScaleDownReplicas ∧
    targetReplicas (clock 9 0) (clock 5 0) (clock 5 0) sampleConfig
      ≠ sampleConfig.ScaleUpReplicas ∧
    (main (sampleWorld { sampleConfig with ScaleDownTime := "05:00" } (clock 9 0) 2)).steps.head?
      = some (Step.enter 1) := by
  decide

/-- C2, amended: for boundaries with `T_up ≥ T_down` and every instant `now`:
the target is `int32(ScaleDownReplicas)` for `now` in the closed interval
`[T_down, T_up]`; when `T_down` is strictly before `T_up`, the target is
`int32(ScaleUpReplicas)` for `now` strictly after `T_up` or strictly before
`T_down`; when `T_up = T_down`, the target is `int32(ScaleDownReplicas)` at
every instant. -/
theorem C2_wrapping_window (now up down : Int) (cfg : config) (h : down ≤ up) :
    (down ≤ now ∧ now ≤ up →
      windowBranch now up down = Branch.scaleDown ∧
      targetReplicas now up down cfg = toInt32 cfg.ScaleDownReplicas) ∧
    (down < up → (now > up ∨ now < down) →
      windowBranch now up down = Branch.scaleUp ∧
      targetReplicas now up down cfg = toInt32 cfg.ScaleUpReplicas) ∧
    (up = down →
      windowBranch now up down = Branch.scaleDown ∧
      targetReplicas now up down cfg = toInt32 cfg.ScaleDownReplicas) := by
  have hdown : ¬ (down < up ∧ (now > up ∨ now < down)) →
      windowBranch now up down = Branch.scaleDown ∧
      targetReplicas now up down cfg = toInt32 cfg.ScaleDownReplicas := by
    intro hc
    have hb : windowBranch now up down = Branch.scaleDown := by
      rw [← branch_ne_scaleUp]
      intro hu
      by_cases hlt : down < up
      · exact hc ⟨hlt, (windowBranch_wrap now up down hlt).1 hu⟩
      · have := (windowBranch_sameDay now up down hlt).1 hu
        omega
    exact ⟨hb, by simp [targetReplicas, hb, branchReplicas, branchCount]⟩
  refine ⟨fun hc => hdown (by omega), ?_, fun heq => hdown (by omega)⟩
  intro hlt hc
  have hb : windowBranch now up down = Branch.scaleUp :=
    (windowBranch_wrap now up down hlt).2 hc
  exact ⟨hb, by simp [targetReplicas, hb, branchReplicas, branchCount]⟩

/-- Witness for C2 amended: up=18:00, down=05:00 gives the up-value 2 at 23:00
and the down-value 1 at 12:00. -/
theorem C2_wrapping_window_witness :
    clock 5 0 ≤ clock 18 0 ∧
    targetReplicas (clock 23 0) (clock 18 0) (clock 5 0) sampleConfig = 2 ∧
    targetReplicas (clock 12 0) (clock 18 0) (clock 5 0) sampleConfig = 1 :=
  ⟨by decide,
   ((C2_wrapping_window (clock 23 0) (clock 18 0) (clock 5 0) sampleConfig
      (by decide)).2.1 (by decide) (by decide)).2.trans (by decide),
   ((C2_wrapping_window (clock 12 0) (clock 18 0) (clock 5 0) sampleConfig
      (by decide)).1 (by decide)).2.trans (by decide)⟩

/-- C3: for a strictly wrapping window (`T_down < T_up`) and every instant
`now`, the scale-up call site is taken if and only if `now > T_up` or
`now < T_down`; the target is then `int32(ScaleUpReplicas)` and otherwise
`int32(ScaleDownReplicas)`; at both boundary instants themselves the
scale-down call site is taken. -/
theorem C3_strict_wrap_iff (now up down : Int) (cfg : config) (h : down < up) :
    (windowBranch now up down = Branch.scaleUp ↔ (now > up ∨ now < down)) ∧
    (now > up ∨ now < down →
      targetReplicas now up down cfg = toInt32 cfg.ScaleUpReplicas) ∧
    (¬ (now > up ∨ now < down) →
      windowBranch now up down = Branch.scaleDown ∧
      targetReplicas now up down cfg = toInt32 cfg.ScaleDownReplicas) ∧
    (windowBranch down up down = Branch.scaleDown ∧
      targetReplicas down up down cfg = toInt32 cfg.ScaleDownReplicas) ∧
    (windowBranch up up down = Branch.scaleDown ∧
      targetReplicas up up down cfg = toInt32 cfg.ScaleDownReplicas) := by
  have key : ∀ t : Int, ¬ (t > up ∨ t < down) →
      windowBranch t up down = Branch.scaleDown ∧
      targetReplicas t up down cfg = toInt32 cfg.ScaleDownReplicas := by
    intro t ht
    have hb : windowBranch t up down = Branch.scaleDown := by
      rw [← branch_ne_scaleUp]
      intro hu
      exact ht ((windowBranch_wrap t up down h).1 hu)
    exact ⟨hb, by simp [targetReplicas, hb, branchReplicas, branchCount]⟩
  refine ⟨windowBranch_wrap now up down h, ?_, key now, key down (by omega), key up (by omega)⟩
  intro hc
  have hb : windowBranch now up down = Branch.scaleUp :=
    (windowBranch_wrap now up down h).2 hc
  simp [targetReplicas, hb, branchReplicas, branchCount]

/-- Witness for C3 with up=18:00, down=05:00 and the default counts 2 and 1:
23:00 gives the up-value, 12:00 the down-value, 05:00:00 exactly the
down-value. -/
theorem C3_strict_wrap_iff_witness :
    clock 5 0 < clock 18 0 ∧
    targetReplicas (clock 23 0) (clock 18 0) (clock 5 0) sampleConfig = 2 ∧
    targetReplicas (clock 12 0) (clock 18 0) (clock 5 0) sampleConfig = 1 ∧
    targetReplicas (clock 5 0) (clock 18 0) (clock 5 0) sampleConfig = 1 :=
  ⟨by decide,
   ((C3_strict_wrap_iff (clock 23 0) (clock 18 0) (clock 5 0) sampleConfig
      (by decide)).2.1 (by decide)).trans (by decide),
   ((C3_strict_wrap_iff (clock 12 0) (clock 18 0) (clock 5 0) sampleConfig
      (by decide)).2.2.1 (by decide)).2.trans (by decide),
   (C3_strict_wrap_iff (clock 12 0) (clock 18 0) (clock 5 0) sampleConfig
      (by decide)).2.2.2.1.2.trans (by decide)⟩

/-- C9: in the branch taken when `T_down` is not before `T_up`
(`T_up ≤ T_down`), the scale-up call site is taken if and only if
`T_up < now < T_down` strictly; so when `T_up = T_down` the scale-down call
site is taken at every instant and the target is `int32(ScaleDownReplicas)`. -/
theorem C9_nonwrapping_exclusive (now up down : Int) (cfg : config) (h : up ≤ down) :
    (windowBranch now up down = Branch.scaleUp ↔ (up < now ∧ now < down)) ∧
    (targetReplicas now up down cfg =
      if up < now ∧ now < down then toInt32 cfg.ScaleUpReplicas
      else toInt32 cfg.ScaleDownReplicas) ∧
    (up = down →
      windowBranch now up down = Branch.scaleDown ∧
      targetReplicas now up down cfg = toInt32 cfg.ScaleDownReplicas) := by
  have hnot : ¬ down < up := by omega
  have hiff := windowBranch_sameDay now up down hnot
  refine ⟨hiff, ?_, ?_⟩
  · by_cases hc : up < now ∧ now < down
    · have hb := hiff.2 hc
      simp [targetReplicas, hb, branchReplicas, branchCount, hc]
    · have hb : windowBranch now up down = Branch.scaleDown := by
        rw [← branch_ne_scaleUp]
        exact fun hu => hc (hiff.1 hu)
      simp only [targetReplicas, hb, branchReplicas, branchCount, if_neg hc]
  · intro heq
    have hb : windowBranch now up down = Branch.scaleDown := by
      rw [← branch_ne_scaleUp]
      intro hu
      have := hiff.1 hu
      omega
    exact ⟨hb, by simp [targetReplicas, hb, branchReplicas, branchCount]⟩

/-- Witness for C9: with both configured times 05:00 the scale-down call site
is taken at 09:00. -/
theorem C9_nonwrapping_exclusive_witness :
    clock 5 0 ≤ clock 5 0 ∧
    windowBranch (clock 9 0) (clock 5 0) (clock 5 0) = Branch.scaleDown :=
  ⟨by decide,
   ((C9_nonwrapping_exclusive (clock 9 0) (clock 5 0) (clock 5 0) sampleConfig
      (by decide)).2.2 rfl).1⟩

/-! ## Reconciliation -/

/-- C4: idempotence of `setMinReplicas`.  From a cluster whose addressed
autoscaler has a floor different from `d`, with client, fetch and patch
succeeding, the first call returns changed=true after exactly one patch and
one event creation and leaves the stored floor equal to `d`; the second call
with the same `d` returns changed=false with zero patches and zero event
creations, so the two calls make exactly one patch in total.  In general, from
any cluster and under any oracles, a call that follows a normally returning
call with the same `d` issues no patch and no event creation and leaves the
cluster as it found it. -/
theorem C4_idempotent (d : Int) (cfg : config) (c : Cluster) (o1 o2 : Oracle) :
    (∀ h : HPA, c.hpas cfg.Namespace cfg.HPAName = some h → h.minReplicas ≠ d →
      o1.clientBuilt → o1.getErr = false → o1.patchErr = false →
      o2.clientBuilt → o2.getErr = false →
      (setMinReplicas d cfg o1 c).result = Except.ok true ∧
      patches (setMinReplicas d cfg o1 c).steps = 1 ∧
      eventCreations (setMinReplicas d cfg o1 c).steps = 1 ∧
      (setMinReplicas d cfg o1 c).cluster.hpas cfg.Namespace cfg.HPAName
        = some { h with minReplicas := d } ∧
      (setMinReplicas d cfg o2 (setMinReplicas d cfg o1 c).cluster).result
        = Except.ok false ∧
      patches (setMinReplicas d cfg o2 (setMinReplicas d cfg o1 c).cluster).steps = 0 ∧
      eventCreations (setMinReplicas d cfg o2 (setMinReplicas d cfg o1 c).cluster).steps = 0 ∧
      patches ((setMinReplicas d cfg o1 c).steps ++
        (setMinReplicas d cfg o2 (setMinReplicas d cfg o1 c).cluster).steps) = 1) ∧
    (∀ b : Bool, (setMinReplicas d cfg o1 c).result = Except.ok b →
      patches (setMinReplicas d cfg o2 (setMinReplicas d cfg o1 c).cluster).steps = 0 ∧
      eventCreations (setMinReplicas d cfg o2 (setMinReplicas d cfg o1 c).cluster).steps = 0 ∧
      (setMinReplicas d cfg o2 (setMinReplicas d cfg o1 c).cluster).cluster
        = (setMinReplicas d cfg o1 c).cluster) := by
  have general : ∀ b : Bool, (setMinReplicas d cfg o1 c).result = Except.ok b →
      patches (setMinReplicas d cfg o2 (setMinReplicas d cfg o1 c).cluster).steps = 0 ∧
      eventCreations (setMinReplicas d cfg o2 (setMinReplicas d cfg o1 c).cluster).steps = 0 ∧
      (setMinReplicas d cfg o2 (setMinReplicas d cfg o1 c).cluster).cluster
        = (setMinReplicas d cfg o1 c).cluster := by
    intro b hr
    obtain ⟨h1, hh1, hm1⟩ := settled_after_success d cfg o1 c b hr
    apply no_write_of_settled
    intro h hh
    rw [hh1] at hh
    cases hh
    exact hm1
  refine ⟨?_, general⟩
  intro h hh hne hb1 hg1 hp1 hb2 hg2
  have hget : c.get o1 cfg.Namespace cfg.HPAName = Except.ok h :=
    (get_ok_iff c o1 _ _ h).2 ⟨hg1, hh⟩
  have hpatch := (patch_ok_iff c o1 cfg.Namespace cfg.HPAName (patchDoc d) _).2
    ⟨hp1, h, hh, rfl⟩
  have hrun := run_changed d cfg o1 c hb1 h hget hne _ hpatch
  have hres : (setMinReplicas d cfg o1 c).result = Except.ok true := by rw [hrun]
  have hstored : (setMinReplicas d cfg o1 c).cluster.hpas cfg.Namespace cfg.HPAName
      = some { h with minReplicas := d } := by
    rw [hrun]
    simp [createEvent_hpas, applyMerge_patchDoc]
  obtain ⟨hp2, he2, _⟩ := general true hres
  have hget2 : (setMinReplicas d cfg o1 c).cluster.get o2 cfg.Namespace cfg.HPAName
      = Except.ok { h with minReplicas := d } :=
    (get_ok_iff _ o2 _ _ _).2 ⟨hg2, hstored⟩
  have hrun2 := run_unchanged d cfg o2 (setMinReplicas d cfg o1 c).cluster hb2 _ hget2 rfl
  have hpatches1 : patches (setMinReplicas d cfg o1 c).steps = 1 := by rw [hrun]; rfl
  refine ⟨hres, hpatches1, by rw [hrun]; rfl, hstored, by rw [hrun2], hp2, he2, ?_⟩
  unfold patches at hpatches1 hp2 ⊢
  rw [List.countP_append, hpatches1, hp2]

/-- Witness for C4, the end-to-end scenario: defaults (up 05:00 with 2
replicas, down 18:00 with 1, UTC), current floor 1.  The run at 09:00 patches
the floor to 2 and creates one event; a second run at 09:05 against the
cluster the first one left issues no patch. -/
theorem C4_idempotent_witness :
    (sampleCluster 1).hpas sampleConfig.Namespace sampleConfig.HPAName = some (sampleHPA 1) ∧
    (sampleHPA 1).minReplicas ≠ 2 ∧ allOk.clientBuilt ∧
    ((setMinReplicas 2 sampleConfig allOk (sampleCluster 1)).result = Except.ok true ∧
      patches (setMinReplicas 2 sampleConfig allOk (sampleCluster 1)).steps = 1) ∧
    (main (sampleWorld sampleConfig (clock 9 0) 1)).steps =
      [Step.enter 2, Step.kubeConfig false, Step.newForConfig, Step.get "prod" "web",
       Step.patch "prod" "web" PatchType.strategicMerge
         "\x7b\"spec\": \x7b\"minReplicas\": 2\x7d\x7d",
       Step.createEvent "prod" (scaledEvent 2 sampleConfig (sampleHPA 1) 0)] ∧
    (main { sampleWorld sampleConfig (clock 9 5) 1 with
        cluster := (main (sampleWorld sampleConfig (clock 9 0) 1)).cluster }).steps =
      [Step.enter 2, Step.kubeConfig false, Step.newForConfig, Step.get "prod" "web"] :=
  ⟨by decide, by decide, by decide,
   ⟨((C4_idempotent 2 sampleConfig (sampleCluster 1) allOk allOk).1 (sampleHPA 1)
      (by decide) (by decide) (by decide) (by decide) (by decide) (by decide) (by decide)).1,
    ((C4_idempotent 2 sampleConfig (sampleCluster 1) allOk allOk).1 (sampleHPA 1)
      (by decide) (by decide) (by decide) (by decide) (by decide) (by decide)
      (by decide)).2.1⟩,
   by decide, by decide⟩

/-- C5, as stated, fails on the code: an invocation in which the clientset
cannot be built ends at the `log.Fatalf` of line 88 before any fetch, so it is
not true that every invocation issues exactly one fetch. -/
theorem C5_counterexample :
    fetches (setMinReplicas 2 sampleConfig { allOk with clientErr := true }
      (sampleCluster 1)).steps = 0 ∧
    remoteCalls (setMinReplicas 2 sampleConfig { allOk with clientErr := true }
      (sampleCluster 1)).steps = [] ∧
    (setMinReplicas 2 sampleConfig { allOk with clientErr := true }
      (sampleCluster 1)).result = Except.error Fatal.clientset := by
  decide

/-- C5, amended: in every invocation in which the cluster client could be
built, exactly one fetch is issued and it is the first remote call; a patch is
issued if and only if the fetch succeeded and the fetched floor differs from
the desired value; an event creation is issued if and only if that patch was
issued and succeeded; at most one patch and at most one event creation are
issued; when the fetched floor equals the desired value the invocation ends
with no patch and no event; the remote calls are therefore one of fetch,
fetch-patch, fetch-patch-event. -/
theorem C5_call_sequence (r : Int) (cfg : config) (o : Oracle) (c : Cluster)
    (hb : o.clientBuilt) :
    fetches (setMinReplicas r cfg o c).steps = 1 ∧
    (remoteCalls (setMinReplicas r cfg o c).steps).head?
      = some (Step.get cfg.Namespace cfg.HPAName) ∧
    (patches (setMinReplicas r cfg o c).steps = 1 ↔
      ∃ h, c.get o cfg.Namespace cfg.HPAName = Except.ok h ∧ h.minReplicas ≠ r) ∧
    patches (setMinReplicas r cfg o c).steps ≤ 1 ∧
    (eventCreations (setMinReplicas r cfg o c).steps = 1 ↔
      (patches (setMinReplicas r cfg o c).steps = 1 ∧
        ∃ c1, c.patch o cfg.Namespace cfg.HPAName (patchDoc r) = Except.ok c1)) ∧
    eventCreations (setMinReplicas r cfg o c).steps ≤ 1 ∧
    (∀ h, c.get o cfg.Namespace cfg.HPAName = Except.ok h → h.minReplicas = r →
      patches (setMinReplicas r cfg o c).steps = 0 ∧
      eventCreations (setMinReplicas r cfg o c).steps = 0 ∧
      (setMinReplicas r cfg o c).result = Except.ok false) ∧
    (remoteCalls (setMinReplicas r cfg o c).steps = [Step.get cfg.Namespace cfg.HPAName] ∨
      remoteCalls (setMinReplicas r cfg o c).steps =
        [Step.get cfg.Namespace cfg.HPAName,
         Step.patch cfg.Namespace cfg.HPAName PatchType.strategicMerge (patchReplicas r)] ∨
      ∃ h, remoteCalls (setMinReplicas r cfg o c).steps =
        [Step.get cfg.Namespace cfg.HPAName,
         Step.patch cfg.Namespace cfg.HPAName PatchType.strategicMerge (patchReplicas r),
         Step.createEvent cfg.Namespace (scaledEvent r cfg h o.eventNow)]) := by
  rcases run_cases r cfg o c with ⟨hnb, _⟩ | ⟨_, e, hg⟩ | ⟨_, h, hg, heq⟩ |
    ⟨_, h, hg, hne, e, hp⟩ | ⟨_, h, hg, hne, c1, hp⟩
  · exact absurd hb hnb
  · rw [run_getErr r cfg o c hb e hg]
    refine ⟨rfl, rfl, ?_, Nat.zero_le 1, ?_, Nat.zero_le 1, ?_, Or.inl rfl⟩
    · constructor
      · intro hc
        exact absurd (show (0 : Nat) = 1 from hc) (by decide)
      · rintro ⟨h, hh, _⟩
        rw [hg] at hh
        cases hh
    · constructor
      · intro hc
        exact absurd (show (0 : Nat) = 1 from hc) (by decide)
      · rintro ⟨hc, _⟩
        exact absurd (show (0 : Nat) = 1 from hc) (by decide)
    · intro h hh
      rw [hg] at hh
      cases hh
  · rw [run_unchanged r cfg o c hb h hg heq]
    refine ⟨rfl, rfl, ?_, Nat.zero_le 1, ?_, Nat.zero_le 1, ?_, Or.inl rfl⟩
    · constructor
      · intro hc
        exact absurd (show (0 : Nat) = 1 from hc) (by decide)
      · rintro ⟨h1, hh, hne⟩
        rw [hg] at hh
        cases hh
        exact absurd heq hne
    · constructor
      · intro hc
        exact absurd (show (0 : Nat) = 1 from hc) (by decide)
      · rintro ⟨hc, _⟩
        exact absurd (show (0 : Nat) = 1 from hc) (by decide)
    · intro _ _ _
      exact ⟨rfl, rfl, rfl⟩
  · rw [run_patchErr r cfg o c hb h hg hne e hp]
    refine ⟨rfl, rfl, ?_, Nat.le_refl 1, ?_, Nat.zero_le 1, ?_, Or.inr (Or.inl rfl)⟩
    · exact ⟨fun _ => ⟨h, hg, hne⟩, fun _ => rfl⟩
    · constructor
      · intro hc
        exact absurd (show (0 : Nat) = 1 from hc) (by decide)
      · rintro ⟨_, c1, hc1⟩
        rw [hp] at hc1
        cases hc1
    · intro h1 hh heq
      rw [hg] at hh
      cases hh
      exact absurd heq hne
  · rw [run_changed r cfg o c hb h hg hne c1 hp]
    refine ⟨rfl, rfl, ?_, Nat.le_refl 1, ?_, Nat.le_refl 1, ?_, Or.inr (Or.inr ⟨h, rfl⟩)⟩
    · exact ⟨fun _ => ⟨h, hg, hne⟩, fun _ => rfl⟩
    · exact ⟨fun _ => ⟨rfl, c1, hp⟩, fun _ => rfl⟩
    · intro h1 hh heq
      rw [hg] at hh
      cases hh
      exact absurd heq hne

/-- Witness for C5 amended: with every external step succeeding and a stored
floor of 1, the call for 2 issues fetch, patch, event in that order; the call
for 1 issues the fetch alone. -/
theorem C5_call_sequence_witness :
    allOk.clientBuilt ∧
    fetches (setMinReplicas 2 sampleConfig allOk (sampleCluster 1)).steps = 1 ∧
    patches (setMinReplicas 2 sampleConfig allOk (sampleCluster 1)).steps ≤ 1 ∧
    remoteCalls (setMinReplicas 2 sampleConfig allOk (sampleCluster 1)).steps =
      [Step.get "prod" "web",
       Step.patch "prod" "web" PatchType.strategicMerge
         "\x7b\"spec\": \x7b\"minReplicas\": 2\x7d\x7d",
       Step.createEvent "prod" (scaledEvent 2 sampleConfig (sampleHPA 1) 0)] ∧
    remoteCalls (setMinReplicas 1 sampleConfig allOk (sampleCluster 1)).steps =
      [Step.get "prod" "web"] :=
  ⟨by decide,
   (C5_call_sequence 2 sampleConfig allOk (sampleCluster 1) (by decide)).1,
   (C5_call_sequence 2 sampleConfig allOk (sampleCluster 1) (by decide)).2.2.2.1,
   by decide, by decide⟩

/-- C6: given a client that could be built, the invocation ends in a fatal
error if and only if the fetch fails, or the fetched floor differs from the
desired value and the patch fails; each remote call is issued at most once (no
retry); the outcome of the event-creation call never changes the result; and
when the patch succeeded the invocation returns changed=true. -/
theorem C6_failure (r : Int) (cfg : config) (o : Oracle) (c : Cluster)
    (hb : o.clientBuilt) :
    ((∃ e, (setMinReplicas r cfg o c).result = Except.error e) ↔
      ((∃ e, c.get o cfg.Namespace cfg.HPAName = Except.error e) ∨
        ∃ h, c.get o cfg.Namespace cfg.HPAName = Except.ok h ∧ h.minReplicas ≠ r ∧
          ∃ e, c.patch o cfg.Namespace cfg.HPAName (patchDoc r) = Except.error e)) ∧
    fetches (setMinReplicas r cfg o c).steps ≤ 1 ∧
    patches (setMinReplicas r cfg o c).steps ≤ 1 ∧
    eventCreations (setMinReplicas r cfg o c).steps ≤ 1 ∧
    (∀ b : Bool, (setMinReplicas r cfg { o with eventErr := b } c).result
      = (setMinReplicas r cfg o c).result) ∧
    (∀ h c1, c.get o cfg.Namespace cfg.HPAName = Except.ok h → h.minReplicas ≠ r →
      c.patch o cfg.Namespace cfg.HPAName (patchDoc r) = Except.ok c1 →
      ∀ b : Bool, (setMinReplicas r cfg { o with eventErr := b } c).result = Except.ok true) := by
  have hb1 : ∀ b : Bool, Oracle.clientBuilt { o with eventErr := b } := fun _ => hb
  rcases run_cases r cfg o c with ⟨hnb, _⟩ | ⟨_, e, hg⟩ | ⟨_, h, hg, heq⟩ |
    ⟨_, h, hg, hne, e, hp⟩ | ⟨_, h, hg, hne, c1, hp⟩
  · exact absurd hb hnb
  · rw [run_getErr r cfg o c hb e hg]
    refine ⟨⟨fun _ => Or.inl ⟨e, hg⟩, fun _ => ⟨_, rfl⟩⟩,
      Nat.le_refl 1, Nat.zero_le 1, Nat.zero_le 1, ?_, ?_⟩
    · intro b
      rw [run_getErr r cfg { o with eventErr := b } c (hb1 b) e hg]
    · intro h1 c1 hh
      rw [hg] at hh
      cases hh
  · rw [run_unchanged r cfg o c hb h hg heq]
    refine ⟨⟨?_, ?_⟩, Nat.le_refl 1, Nat.zero_le 1, Nat.zero_le 1, ?_, ?_⟩
    · rintro ⟨e, he⟩
      cases he
    · rintro (⟨e, he⟩ | ⟨h1, hh, hne, _⟩)
      · rw [hg] at he
        cases he
      · rw [hg] at hh
        cases hh
        exact absurd heq hne
    · intro b
      rw [run_unchanged r cfg { o with eventErr := b } c (hb1 b) h hg heq]
    · intro h1 c1 hh hne
      rw [hg] at hh
      cases hh
      exact absurd heq hne
  · rw [run_patchErr r cfg o c hb h hg hne e hp]
    refine ⟨⟨fun _ => Or.inr ⟨h, hg, hne, e, hp⟩, fun _ => ⟨_, rfl⟩⟩,
      Nat.le_refl 1, Nat.le_refl 1, Nat.zero_le 1, ?_, ?_⟩
    · intro b
      rw [run_patchErr r cfg { o with eventErr := b } c (hb1 b) h hg hne e hp]
    · intro h1 c1 _ _ hc1
      rw [hp] at hc1
      cases hc1
  · rw [run_changed r cfg o c hb h hg hne c1 hp]
    refine ⟨⟨?_, ?_⟩, Nat.le_refl 1, Nat.le_refl 1, Nat.le_refl 1, ?_, ?_⟩
    · rintro ⟨e, he⟩
      cases he
    · rintro (⟨e, he⟩ | ⟨h1, hh, _, e, he⟩)
      · rw [hg] at he
        cases he
      · rw [hp] at he
        cases he
    · intro b
      rw [run_changed r cfg { o with eventErr := b } c (hb1 b) h hg hne c1 hp]
    · intro _ _ _ _ _ b
      rw [run_changed r cfg { o with eventErr := b } c (hb1 b) h hg hne c1 hp]

/-- Witness for C6: a failing patch is fatal; a failing event creation after a
successful patch still returns changed=true. -/
theorem C6_failure_witness :
    allOk.clientBuilt ∧
    (setMinReplicas 2 sampleConfig { allOk with eventErr := true } (sampleCluster 1)).result
      = (setMinReplicas 2 sampleConfig allOk (sampleCluster 1)).result ∧
    (setMinReplicas 2 sampleConfig { allOk with eventErr := true } (sampleCluster 1)).result
      = Except.ok true ∧
    (setMinReplicas 2 sampleConfig { allOk with patchErr := true } (sampleCluster 1)).result
      = Except.error (Fatal.updateHPA ApiError.transport) ∧
    (setMinReplicas 2 sampleConfig { allOk with getErr := true } (sampleCluster 1)).result
      = Except.error (Fatal.getHPA ApiError.transport) ∧
    (setMinReplicas 2 (defaultConfig "api" "prod") allOk (sampleCluster 1)).result
      = Except.error (Fatal.getHPA ApiError.notFound) :=
  ⟨by decide,
   (C6_failure 2 sampleConfig allOk (sampleCluster 1) (by decide)).2.2.2.2.1 true,
   by decide, by decide, by decide, by decide⟩

/-- C7: frame of the update.  For every desired value `r`, every patch step
of an invocation is a strategic-merge patch addressed to the configured
namespace and name whose body is exactly the document
`{"spec": {"minReplicas": r}}`; applied to any autoscaler record that document
sets the floor to `r` and leaves every other field as it was; and after an
invocation that changed the cluster, the addressed autoscaler is the old one
with only its floor replaced, every other autoscaler being untouched. -/
theorem C7_patch_frame (r : Int) (cfg : config) (o : Oracle) (c : Cluster) :
    (∀ s ∈ (setMinReplicas r cfg o c).steps, s.isPatch = true →
      s = Step.patch cfg.Namespace cfg.HPAName PatchType.strategicMerge
        ("\x7b\"spec\": \x7b\"minReplicas\": " ++ toString r ++ "\x7d\x7d")) ∧
    patchReplicas r = (patchDoc r).render ∧
    (∀ h : HPA,
      (h.applyMerge (patchDoc r)).minReplicas = r ∧
      (h.applyMerge (patchDoc r)).maxReplicas = h.maxReplicas ∧
      (h.applyMerge (patchDoc r)).metrics = h.metrics ∧
      (h.applyMerge (patchDoc r)).scaleTargetRef = h.scaleTargetRef ∧
      (h.applyMerge (patchDoc r)).Namespace = h.Namespace ∧
      (h.applyMerge (patchDoc r)).name = h.name ∧
      (h.applyMerge (patchDoc r)).uid = h.uid) ∧
    ((setMinReplicas r cfg o c).result = Except.ok true →
      (∃ h, c.hpas cfg.Namespace cfg.HPAName = some h ∧
        (setMinReplicas r cfg o c).cluster.hpas cfg.Namespace cfg.HPAName
          = some { h with minReplicas := r }) ∧
      ∀ ns name, ¬ (ns = cfg.Namespace ∧ name = cfg.HPAName) →
        (setMinReplicas r cfg o c).cluster.hpas ns name = c.hpas ns name) := by
  refine ⟨?_, ?_, ?_, ?_⟩
  · intro s hs hp
    rcases run_cases r cfg o c with ⟨hnb, _⟩ | ⟨hb, e, hg⟩ | ⟨hb, h, hg, heq⟩ |
      ⟨hb, h, hg, hne, e, hpe⟩ | ⟨hb, h, hg, hne, c1, hpo⟩
    · cases hk : o.kubeConfigErr
      · cases hc : o.clientErr
        · exact absurd ⟨hk, hc⟩ hnb
        · rw [run_clientErr r cfg o c hk hc] at hs
          simp only [List.mem_cons, List.mem_singleton, List.not_mem_nil, or_false] at hs
          rcases hs with rfl | rfl | rfl <;> cases hp
      · rw [run_kubeConfigErr r cfg o c hk] at hs
        simp only [List.mem_cons, List.mem_singleton, List.not_mem_nil, or_false] at hs
        rcases hs with rfl | rfl <;> cases hp
    · rw [run_getErr r cfg o c hb e hg] at hs
      simp only [List.mem_cons, List.mem_singleton, List.not_mem_nil, or_false] at hs
      rcases hs with rfl | rfl | rfl | rfl <;> cases hp
    · rw [run_unchanged r cfg o c hb h hg heq] at hs
      simp only [List.mem_cons, List.mem_singleton, List.not_mem_nil, or_false] at hs
      rcases hs with rfl | rfl | rfl | rfl <;> cases hp
    · rw [run_patchErr r cfg o c hb h hg hne e hpe] at hs
      simp only [List.mem_cons, List.mem_singleton, List.not_mem_nil, or_false] at hs
      rcases hs with rfl | rfl | rfl | rfl | rfl
      · cases hp
      · cases hp
      · cases hp
      · cases hp
      · rfl
    · rw [run_changed r cfg o c hb h hg hne c1 hpo] at hs
      simp only [List.mem_cons, List.mem_singleton, List.not_mem_nil, or_false] at hs
      rcases hs with rfl | rfl | rfl | rfl | rfl | rfl
      · cases hp
      · cases hp
      · cases hp
      · cases hp
      · rfl
      · cases hp
  · apply String.ext
    simp [patchReplicas, patchDoc, Doc.render, String.data_append]
  · intro h
    rw [applyMerge_patchDoc]
    exact ⟨rfl, rfl, rfl, rfl, rfl, rfl, rfl⟩
  · intro hr
    rcases run_cases r cfg o c with ⟨_, _, _, _, _, e, he⟩ | ⟨hb, e, hg⟩ | ⟨hb, h, hg, heq⟩ |
      ⟨hb, h, hg, hne, e, hpe⟩ | ⟨hb, h, hg, hne, c1, hpo⟩
    · rw [he] at hr
      cases hr
    · rw [run_getErr r cfg o c hb e hg] at hr
      cases hr
    · rw [run_unchanged r cfg o c hb h hg heq] at hr
      cases hr
    · rw [run_patchErr r cfg o c hb h hg hne e hpe] at hr
      cases hr
    · rw [run_changed r cfg o c hb h hg hne c1 hpo]
      obtain ⟨_, h1, hh1, hc1⟩ := (patch_ok_iff c o _ _ _ c1).1 hpo
      refine ⟨⟨h1, hh1, ?_⟩, ?_⟩
      · simp only [createEvent_hpas]
        rw [hc1]
        simp [applyMerge_patchDoc]
      · intro ns name hn
        simp only [createEvent_hpas]
        rw [hc1]
        simp only [if_neg hn]

/-- Witness for C7: the body sent for 2 is the literal document, and the
sample autoscaler keeps its ceiling of 10, its metrics and its identity while
its floor goes from 1 to 2. -/
theorem C7_patch_frame_witness :
    (setMinReplicas 2 sampleConfig allOk (sampleCluster 1)).result = Except.ok true ∧
    patchReplicas 2 = "\x7b\"spec\": \x7b\"minReplicas\": 2\x7d\x7d" ∧
    (∀ ns name, ¬ (ns = sampleConfig.Namespace ∧ name = sampleConfig.HPAName) →
      (setMinReplicas 2 sampleConfig allOk (sampleCluster 1)).cluster.hpas ns name
        = (sampleCluster 1).hpas ns name) ∧
    (setMinReplicas 2 sampleConfig allOk (sampleCluster 1)).cluster.hpas "prod" "web"
      = some { Namespace := "prod", name := "web", uid := "uid-1",
               scaleTargetRef := "Deployment/web", minReplicas := 2, maxReplicas := 10,
               metrics := ["cpu"] } :=
  ⟨by decide, by decide,
   ((C7_patch_frame 2 sampleConfig allOk (sampleCluster 1)).2.2.2 (by decide)).2,
   by decide⟩

/-! ## main -/

/-- C8: configuration failures precede all cluster access.  In every run whose
environment was read and in which the timezone cannot be resolved, or the
scale-up or the scale-down time does not parse, the run ends in the fatal
error of that step with an empty trace (no credential loading, no client
construction, no fetch, no patch, no event) and leaves the cluster untouched;
`setMinReplicas` is entered at most once per run, and it is entered (exactly
once) if and only if the environment, the timezone and both times were all
obtained. -/
theorem C8_config_failures_first (w : World) :
    (∀ cfg, w.envParse = some cfg →
      (w.loadLocation cfg.Timezone = none ∨ w.parseClock cfg.ScaleUpTime = none ∨
        w.parseClock cfg.ScaleDownTime = none) →
      ((main w).result = Except.error Fatal.timezone ∨
        (main w).result = Except.error Fatal.scaleUpTime ∨
        (main w).result = Except.error Fatal.scaleDownTime) ∧
      (main w).steps = [] ∧ (main w).cluster = w.cluster) ∧
    invocations (main w).steps ≤ 1 ∧
    (invocations (main w).steps = 1 ↔
      ∃ cfg, w.envParse = some cfg ∧ (w.loadLocation cfg.Timezone).isSome = true ∧
        (w.parseClock cfg.ScaleUpTime).isSome = true ∧
        (w.parseClock cfg.ScaleDownTime).isSome = true) := by
  have zero : ∀ e, main w = w.fatal e →
      invocations (main w).steps ≤ 1 ∧ ¬ invocations (main w).steps = 1 := by
    intro e he
    rw [he]
    exact ⟨Nat.zero_le 1, fun hc => absurd (show (0 : Nat) = 1 from hc) (by decide)⟩
  cases henv : w.envParse with
  | none =>
    have hm := main_envFail w henv
    refine ⟨fun cfg hc => (by cases hc), (zero _ hm).1, ?_⟩
    constructor
    · intro hc
      exact absurd hc (zero _ hm).2
    · rintro ⟨cfg, hc, _⟩
      cases hc
  | some cfg0 =>
    cases hloc : w.loadLocation cfg0.Timezone with
    | none =>
      have hm := main_timezoneFail w cfg0 henv hloc
      refine ⟨?_, (zero _ hm).1, ?_⟩
      · intro cfg hc _
        cases hc
        rw [hm]
        exact ⟨Or.inl rfl, rfl, rfl⟩
      · constructor
        · intro hc
          exact absurd hc (zero _ hm).2
        · rintro ⟨cfg, hc, h1, _⟩
          cases hc
          rw [hloc] at h1
          cases h1
    | some loc =>
      cases hup : w.parseClock cfg0.ScaleUpTime with
      | none =>
        have hm := main_scaleUpFail w cfg0 loc henv hloc hup
        refine ⟨?_, (zero _ hm).1, ?_⟩
        · intro cfg hc _
          cases hc
          rw [hm]
          exact ⟨Or.inr (Or.inl rfl), rfl, rfl⟩
        · constructor
          · intro hc
            exact absurd hc (zero _ hm).2
          · rintro ⟨cfg, hc, _, h2, _⟩
            cases hc
            rw [hup] at h2
            cases h2
      | some upClock =>
        cases hdown : w.parseClock cfg0.ScaleDownTime with
        | none =>
          have hm := main_scaleDownFail w cfg0 loc upClock henv hloc hup hdown
          refine ⟨?_, (zero _ hm).1, ?_⟩
          · intro cfg hc _
            cases hc
            rw [hm]
            exact ⟨Or.inr (Or.inr rfl), rfl, rfl⟩
          · constructor
            · intro hc
              exact absurd hc (zero _ hm).2
            · rintro ⟨cfg, hc, _, _, h3⟩
              cases hc
              rw [hdown] at h3
              cases h3
        | some downClock =>
          have hm := main_reconciles w cfg0 loc upClock downClock henv hloc hup hdown
          refine ⟨?_, ?_, ?_⟩
          · intro cfg hc hfail
            cases hc
            rw [hloc, hup, hdown] at hfail
            rcases hfail with hf | hf | hf <;> cases hf
          · rw [hm]
            exact Nat.le_of_eq (invocations_setMinReplicas _ _ _ _)
          · constructor
            · intro _
              exact ⟨cfg0, rfl, by rw [hloc]; rfl, by rw [hup]; rfl, by rw [hdown]; rfl⟩
            · intro _
              rw [hm]
              exact invocations_setMinReplicas _ _ _ _

/-- Witness for C8: an unknown zone, and a malformed time in either position,
each end the run with an empty trace; the default configuration enters
`setMinReplicas` once. -/
theorem C8_config_failures_first_witness :
    sampleLoadLocation "Mars/Phobos" = none ∧
    (main (sampleWorld { sampleConfig with Timezone := "Mars/Phobos" } (clock 9 0) 1)).steps = [] ∧
    (main (sampleWorld { sampleConfig with Timezone := "Mars/Phobos" } (clock 9 0) 1)).result
      = Except.error Fatal.timezone ∧
    (main (sampleWorld { sampleConfig with ScaleUpTime := "25:00" } (clock 9 0) 1)).steps = [] ∧
    (main (sampleWorld { sampleConfig with ScaleDownTime := "6pm" } (clock 9 0) 1)).result
      = Except.error Fatal.scaleDownTime ∧
    invocations (main (sampleWorld sampleConfig (clock 9 0) 1)).steps = 1 :=
  ⟨rfl,
   ((C8_config_failures_first
      (sampleWorld { sampleConfig with Timezone := "Mars/Phobos" } (clock 9 0) 1)).1
      { sampleConfig with Timezone := "Mars/Phobos" } rfl (Or.inl rfl)).2.1,
   by decide, by decide, by decide, by decide⟩

/-- C10, as stated, fails on the program: a count above `2^31-1` is rejected.
With `SCALE_UP_REPLICAS=4294967299` (`2^32+3`) the 32-bit integer parse of
`env.Parse` fails, the run ends at the `log.Fatalf` of line 36 with an empty
trace, and `setMinReplicas` is never entered, so the count is neither handed
on nor reduced modulo `2^32`. -/
theorem C10_counterexample :
    parseInt32 "4294967299" = none ∧
    (countWorld "4294967299" (clock 9 0)).envParse = none ∧
    (main (countWorld "4294967299" (clock 9 0))).result = Except.error Fatal.envParse ∧
    (main (countWorld "4294967299" (clock 9 0))).steps = [] ∧
    invocations (main (countWorld "4294967299" (clock 9 0))).steps = 0 := by
  decide

/-- C10, amended: the value handed to `setMinReplicas` is the configured count
of the branch taken, converted to `int32`, a conversion that reduces modulo
`2^32` into `[-2^31, 2^31-1]` and is the identity exactly on that range.
`env.Parse` reads the counts as 32-bit integers, so in every run that gets
past it both counts lie in `[-2^31, 2^31-1]` and the value handed on is exactly
one of the two configured counts; it is non-negative when the counts are.
After `env.Parse` nothing inspects the counts: whenever the timezone and both
times are obtained, the run is the invocation of `setMinReplicas` on the count
of the branch taken, and a negative count such as -1 is handed on as it is. -/
theorem C10_int32_conversion (w : World) (cfg : config) (now up down : Int)
    (henv : w.envParse = some cfg) :
    targetReplicas now up down cfg = toInt32 (branchCount (windowBranch now up down) cfg) ∧
    (branchCount (windowBranch now up down) cfg = cfg.ScaleUpReplicas ∨
      branchCount (windowBranch now up down) cfg = cfg.ScaleDownReplicas) ∧
    (∀ x : Int,
      (-2147483648 ≤ toInt32 x ∧ toInt32 x ≤ 2147483647) ∧
      (toInt32 x - x) % 4294967296 = 0 ∧
      (toInt32 x = x ↔ (-2147483648 ≤ x ∧ x ≤ 2147483647))) ∧
    (-2147483648 ≤ cfg.ScaleUpReplicas ∧ cfg.ScaleUpReplicas ≤ 2147483647 ∧
      -2147483648 ≤ cfg.ScaleDownReplicas ∧ cfg.ScaleDownReplicas ≤ 2147483647) ∧
    targetReplicas now up down cfg = branchCount (windowBranch now up down) cfg ∧
    (targetReplicas now up down cfg = cfg.ScaleUpReplicas ∨
      targetReplicas now up down cfg = cfg.ScaleDownReplicas) ∧
    (0 ≤ cfg.ScaleUpReplicas ∧ 0 ≤ cfg.ScaleDownReplicas →
      0 ≤ targetReplicas now up down cfg) ∧
    (∀ (loc : Location) (upClock downClock : Nat × Nat),
      w.loadLocation cfg.Timezone = some loc →
      w.parseClock cfg.ScaleUpTime = some upClock →
      w.parseClock cfg.ScaleDownTime = some downClock →
      main w = setMinReplicas
        (branchCount
          (windowBranch w.now (loc.date (loc.dayOf w.now) upClock.1 upClock.2)
            (loc.date (loc.dayOf w.now) downClock.1 downClock.2)) cfg)
        cfg w.oracle w.cluster) ∧
    (∃ (w0 : World) (cfg0 : config), w0.envParse = some cfg0 ∧ cfg0.ScaleUpReplicas < 0 ∧
      (main w0).steps.head? = some (Step.enter cfg0.ScaleUpReplicas)) := by
  obtain ⟨hupR, hdownR⟩ := parseEnv_range w.environ cfg henv
  have hcount : ∀ b : Branch, toInt32 (branchCount b cfg) = branchCount b cfg := by
    intro b
    cases b
    · exact toInt32_of_inInt32 _ hupR
    · exact toInt32_of_inInt32 _ hdownR
  have hsel : ∀ b : Branch,
      branchCount b cfg = cfg.ScaleUpReplicas ∨ branchCount b cfg = cfg.ScaleDownReplicas := by
    intro b
    cases b
    · exact Or.inl rfl
    · exact Or.inr rfl
  have htarget : targetReplicas now up down cfg = branchCount (windowBranch now up down) cfg :=
    hcount _
  refine ⟨rfl, hsel _, ?_, ⟨hupR.1, hupR.2, hdownR.1, hdownR.2⟩, htarget, ?_, ?_, ?_, ?_⟩
  · intro x
    exact ⟨toInt32_range x, toInt32_congr x, toInt32_eq_self_iff x⟩
  · rw [htarget]
    exact hsel _
  · rintro ⟨h1, h2⟩
    rw [htarget]
    rcases hsel (windowBranch now up down) with hb | hb <;> rw [hb] <;> assumption
  · intro loc upClock downClock hloc hup hdown
    rw [main_reconciles w cfg loc upClock downClock henv hloc hup hdown]
    unfold targetReplicas branchReplicas
    rw [hcount]
  · exact ⟨countWorld "-1" (clock 9 0), { sampleConfig with ScaleUpReplicas := -1 },
      by decide, by decide, by decide⟩

/-- Witness for C10 amended: the default environment gives the counts 2 and 1,
and the value handed on at 09:00 is the scale-up count 2; with
`SCALE_UP_REPLICAS=-1` the run enters `setMinReplicas` with -1. -/
theorem C10_int32_conversion_witness :
    (sampleWorld sampleConfig (clock 9 0) 1).envParse = some sampleConfig ∧
    targetReplicas (clock 9 0) (clock 5 0) (clock 18 0) sampleConfig = 2 ∧
    0 ≤ targetReplicas (clock 9 0) (clock 5 0) (clock 18 0) sampleConfig ∧
    parseInt32 "-1" = some (-1) ∧
    (main (countWorld "-1" (clock 9 0))).steps.head? = some (Step.enter (-1)) :=
  ⟨by decide,
   (C10_int32_conversion (sampleWorld sampleConfig (clock 9 0) 1) sampleConfig
      (clock 9 0) (clock 5 0) (clock 18 0) (by decide)).2.2.2.2.1.trans (by decide),
   (C10_int32_conversion (sampleWorld sampleConfig (clock 9 0) 1) sampleConfig
      (clock 9 0) (clock 5 0) (clock 18 0) (by decide)).2.2.2.2.2.2.1 (by decide),
   by decide, by decide⟩

end HpaTimeScaler
